import Mathlib

/-!
Shallow embedding of the job orchestration subsystem of the Sienn-AI backend:
the record-store helpers (`app/utils/db_helpers.py`), the submission and
status routes (`app/routes/jobs.py`), the Celery task executor and the
cleanup sweep (`app/tasks.py`), and the model-configuration resolution of
`app/services/finetuning_service.py`.  Storage and queue failures are
modelled by explicit error oracles; the external Trainer collaborator is
modelled by its outcome (progress callbacks plus success metadata or a
raised message).
-/

namespace SiennAI

/-- Row of the `datasets` table (the fields the job subsystem reads). -/
structure Dataset where
  id : String
  file_path : String
  deriving DecidableEq

/-- Parsed content of the `meta` JSON column of a job row: the metadata
dictionary returned by the Trainer, merged with the `model_path` key added
by the executor (`tasks.py` lines 112-115). -/
structure JobMeta where
  trainer : List (String × String)
  model_path : String
  deriving DecidableEq

/-- Row of the `jobs` table (schema of `db.py`): timestamps are modelled as
naturals ordered like the ISO strings the code stores. -/
structure Job where
  id : String
  dataset_id : String
  status : String
  progress : Rat
  message : Option String
  created_at : Nat
  updated_at : Nat
  meta : Option JobMeta
  deriving DecidableEq

/-- The relational store: the `datasets` and `jobs` tables. -/
structure Store where
  datasets : List Dataset
  jobs : List Job
  deriving DecidableEq

/-- Raw record-store operation.  `err := true` models a storage I/O error
raised by the database driver; the helpers below catch it. -/
def dbOp {α : Type} (err : Bool) (a : α) : Except String α :=
  if err then .error "storage error" else .ok a

/-- Embedding of `db_helpers.dataset_exists`: the `except` clause converts a
raised storage error into `False`. -/
def dataset_exists (err : Bool) (datasets : List Dataset) (dataset_id : String) : Bool :=
  match dbOp err (datasets.any (fun d => decide (d.id = dataset_id))) with
  | .ok r => r
  | .error _ => false

/-- Initial message written by `db_helpers.create_job_record`. -/
def initialJobMessage : String := "Job submitted, waiting to start..."

/-- The row inserted by `db_helpers.create_job_record`. -/
def newJobRow (job_id dataset_id : String) (created_at : Nat) : Job :=
  { id := job_id, dataset_id := dataset_id, status := "pending", progress := 0,
    message := some initialJobMessage, created_at := created_at,
    updated_at := created_at, meta := none }

/-- Embedding of `db_helpers.create_job_record`: inserts a `pending` row;
a raised storage error is caught and reported as `false`. -/
def create_job_record (err : Bool) (jobs : List Job) (job_id dataset_id : String)
    (created_at : Nat) : List Job × Bool :=
  match dbOp err (jobs ++ [newJobRow job_id dataset_id created_at]) with
  | .ok js => (js, true)
  | .error _ => (jobs, false)

/-- Embedding of `db_helpers.create_dataset_record`: a raised storage error
is caught and reported as `false`. -/
def create_dataset_record (err : Bool) (datasets : List Dataset) (metadata : Dataset) :
    List Dataset × Bool :=
  match dbOp err (datasets ++ [metadata]) with
  | .ok ds => (ds, true)
  | .error _ => (datasets, false)

/-- Embedding of `db_helpers.update_job_status`: `UPDATE jobs SET status,
message WHERE id = ?`; a raised storage error is caught and reported as
`false`. -/
def update_job_status (err : Bool) (jobs : List Job) (job_id status message : String) :
    List Job × Bool :=
  match dbOp err (jobs.map (fun j =>
      if decide (j.id = job_id) then { j with status := status, message := some message } else j)) with
  | .ok js => (js, true)
  | .error _ => (jobs, false)

/-- Embedding of the executor-local `_update_job_status` of
`tasks.finetune_model`: `UPDATE jobs SET status, progress, message,
updated_at WHERE id = ?`. -/
def executorUpdateJobStatus (jobs : List Job) (job_id status : String) (progress : Rat)
    (message : Option String) (now : Nat) : List Job :=
  jobs.map (fun j =>
    if decide (j.id = job_id) then
      { j with status := status, progress := progress, message := message, updated_at := now }
    else j)

/-- Response of the `POST /api/start-finetuning` route: either a raised
`HTTPException` or the `StartFinetuningResponse` payload. -/
inductive SubmitResponse where
  | httpError (status_code : Nat) (detail : String)
  | ok (job_id : String) (status : String) (dataset_id : String) (message : String)
      (created_at : Nat)
  deriving DecidableEq

/-- Whether the submission response is the success payload. -/
def SubmitResponse.isOk : SubmitResponse → Bool
  | .ok .. => true
  | _ => false

/-- Environment oracle for one submission: storage errors for the three
record-store helper calls and the outcome of `apply_async` (`some e` models
the enqueue raising with message `e`). -/
structure SubmitOracle where
  existsErr : Bool
  createErr : Bool
  updateErr : Bool
  enqueueErr : Option String
  deriving DecidableEq

/-- The `StartFinetuningRequest` model: optional hyperparameters default to
`none`, meaning "use the model profile default". -/
structure FinetuneRequest where
  dataset_id : String
  model_name : String
  learning_rate : Option Rat
  num_epochs : Nat
  batch_size : Option Nat
  max_length : Option Nat
  deriving DecidableEq

/-- Embedding of `routes/jobs.start_finetuning`.  `job_id` stands for the
generated uuid and `now` for `datetime.utcnow()`.  Besides the new store and
the response, it returns the audit log of `(job_id, status)` values written
to the jobs table. -/
def start_finetuning (o : SubmitOracle) (st : Store) (job_id : String) (now : Nat)
    (req : FinetuneRequest) : Store × SubmitResponse × List (String × String) :=
  if !(dataset_exists o.existsErr st.datasets req.dataset_id) then
    (st, .httpError 404 ("Dataset " ++ req.dataset_id ++ " not found"), [])
  else
    match create_job_record o.createErr st.jobs job_id req.dataset_id now with
    | (_, false) => (st, .httpError 500 "Failed to create job", [])
    | (jobs1, true) =>
      match o.enqueueErr with
      | some e =>
        let upd := update_job_status o.updateErr jobs1 job_id "failed"
          ("Failed to submit job: " ++ e)
        ({ st with jobs := upd.1 },
         .httpError 500 ("Failed to submit job to queue: " ++ e),
         (job_id, "pending") :: (if upd.2 then [(job_id, "failed")] else []))
      | none =>
        ({ st with jobs := jobs1 },
         .ok job_id "pending" req.dataset_id "Fine-tuning job submitted successfully" now,
         [(job_id, "pending")])

/-- Embedding of `routes/jobs.get_training_status`: the status poll, a plain
lookup of the job row (`none` maps to the 404 response). -/
def get_training_status (st : Store) (job_id : String) : Option Job :=
  st.jobs.find? (fun j => decide (j.id = job_id))

/-- Outcome of one Trainer invocation: the progress-callback updates it
issues, then either the returned metadata dictionary or a raised message. -/
inductive TrainerResult where
  | ok (updates : List (Rat × String)) (metadata : List (String × String))
  | raise (updates : List (Rat × String)) (msg : String)
  deriving DecidableEq

/-- Environment of one executor attempt: the Trainer outcome and the wall
clock used for `updated_at`. -/
structure ExecEnv where
  trainer : TrainerResult
  now : Nat
  deriving DecidableEq

/-- Artifact directories of the on-disk layout: the model directory
`data/models/(job id)` and the export directory `data/exports/(job id)`. -/
inductive ArtifactDir where
  | model (job_id : String)
  | exported (job_id : String)
  deriving DecidableEq

/-- Filesystem state: the existing artifact directories with their total
file sizes in bytes. -/
abbrev FS := List (ArtifactDir × Nat)

/-- Names of the existing directories. -/
def dirs (fs : FS) : List ArtifactDir := fs.map Prod.fst

/-- Embedding of `Path.mkdir(parents=True, exist_ok=True)`. -/
def mkdirP (fs : FS) (d : ArtifactDir) : FS :=
  if d ∈ dirs fs then fs else fs ++ [(d, 0)]

/-- The `model_path` string stored in `meta` by the executor
(`tasks.py` line 80: `./data/models/(job id)`). -/
def modelOutputDirPath (job_id : String) : String := "./data/models/" ++ job_id

/-- Progress-callback writes issued by the Trainer: each one is an immediate
`_update_job_status("running", p, m)` (`tasks.py` line 105).  Returns the
updated table and the audit log of the writes. -/
def applyProgressUpdates (jobs : List Job) (job_id : String) (now : Nat) :
    List (Rat × String) → List Job × List (String × String)
  | [] => (jobs, [])
  | (p, m) :: rest =>
    let jobs1 := executorUpdateJobStatus jobs job_id "running" p (some m) now
    let next := applyProgressUpdates jobs1 job_id now rest
    (next.1, (job_id, "running") :: next.2)

/-- Embedding of `UPDATE jobs SET meta = ? WHERE id = ?`
(`tasks.py` lines 117-126). -/
def setJobMeta (jobs : List Job) (job_id : String) (m : JobMeta) : List Job :=
  jobs.map (fun j => if decide (j.id = job_id) then { j with meta := some m } else j)

/-- Result of one run of the task body `_run_finetuning`: the new store and
filesystem, the `status` field of the returned dictionary, and the audit log
of `(job_id, status)` writes. -/
structure ExecResult where
  store : Store
  fs : FS
  result_status : String
  log : List (String × String)
  deriving DecidableEq

/-- Embedding of `tasks.finetune_model._run_finetuning`, one execution
attempt: set `running`, resolve the dataset path (absent means `failed` and
return), make the output directory, invoke the Trainer, then either persist
`meta` and complete, or catch the raised exception and record `failed`.  The
enclosing `try`/`except Exception` of the source catches every raise, so
every branch produces a normal return. -/
def run_finetuning (env : ExecEnv) (st : Store) (fs : FS)
    (job_id dataset_id : String) : ExecResult :=
  let jobs1 := executorUpdateJobStatus st.jobs job_id "running" 0
    (some "Initializing fine-tuning...") env.now
  let log1 : List (String × String) := [(job_id, "running")]
  match st.datasets.find? (fun d => decide (d.id = dataset_id)) with
  | none =>
    let jobs2 := executorUpdateJobStatus jobs1 job_id "failed" 0
      (some ("Dataset " ++ dataset_id ++ " not found")) env.now
    { store := { st with jobs := jobs2 }, fs := fs, result_status := "failed",
      log := log1 ++ [(job_id, "failed")] }
  | some _row =>
    let fs1 := mkdirP fs (.model job_id)
    match env.trainer with
    | .raise updates msg =>
      let prog := applyProgressUpdates jobs1 job_id env.now updates
      let jobs2 := executorUpdateJobStatus prog.1 job_id "failed" 0
        (some ("Fine-tuning failed: " ++ msg)) env.now
      { store := { st with jobs := jobs2 }, fs := fs1, result_status := "failed",
        log := log1 ++ prog.2 ++ [(job_id, "failed")] }
    | .ok updates metadata =>
      let prog := applyProgressUpdates jobs1 job_id env.now updates
      let jobs2 := setJobMeta prog.1 job_id
        { trainer := metadata, model_path := modelOutputDirPath job_id }
      let jobs3 := executorUpdateJobStatus jobs2 job_id "completed" 100
        (some "Fine-tuning completed successfully!") env.now
      { store := { st with jobs := jobs3 }, fs := fs1, result_status := "completed",
        log := log1 ++ prog.2 ++ [(job_id, "completed")] }

/-- Outcome of one Celery task invocation as the worker sees it: the task
body either returns a value or lets an exception escape (only the latter
triggers `autoretry_for`). -/
inductive TaskOutcome where
  | returned (r : ExecResult)
  | raised (r : ExecResult) (msg : String)
  deriving DecidableEq

/-- Embedding of the Celery task `tasks.finetune_model`: runs the body and
returns its result.  No branch of the body lets an exception escape, so the
outcome is always `returned`. -/
def finetune_model (env : ExecEnv) (st : Store) (fs : FS)
    (job_id dataset_id : String) : TaskOutcome :=
  .returned (run_finetuning env st fs job_id dataset_id)

/-- The Celery autoretry driver for `autoretry_for=(Exception,)` with a
retry budget: a task invocation that raises is re-executed while retries
remain; a task that returns ends the chain.  `envs k` is the environment of
attempt `k`; the result carries the final state and the number of execution
attempts made. -/
def celery_drive (envs : Nat → ExecEnv) (job_id dataset_id : String) :
    Nat → Nat → Store → FS → Store × FS × Nat
  | fuel, attempt, st, fs =>
    match finetune_model (envs attempt) st fs job_id dataset_id with
    | .returned r => (r.store, r.fs, attempt + 1)
    | .raised r _ =>
      match fuel with
      | 0 => (r.store, r.fs, attempt + 1)
      | fuel' + 1 => celery_drive envs job_id dataset_id fuel' (attempt + 1) r.store r.fs

/-- One queued execution of `finetune_model` under the task's declared
retry policy (`max_retries=3`). -/
def finetune_model_with_retries (envs : Nat → ExecEnv) (job_id dataset_id : String)
    (st : Store) (fs : FS) : Store × FS × Nat :=
  celery_drive envs job_id dataset_id 3 0 st fs

/-- Submission followed by the executor run of the enqueued task (the task
runs exactly when the enqueue succeeded, which coincides with the success
response).  Returns the final store and filesystem and the concatenated
audit log of status writes. -/
def submission_then_execution (o : SubmitOracle) (env : ExecEnv) (st : Store) (fs : FS)
    (job_id : String) (now : Nat) (req : FinetuneRequest) :
    Store × FS × List (String × String) :=
  match start_finetuning o st job_id now req with
  | (st1, .ok .., log1) =>
    let r := run_finetuning env st1 fs job_id req.dataset_id
    (r.store, r.fs, log1 ++ r.log)
  | (st1, _, log1) => (st1, fs, log1)

/-- Statuses written for one job id, in order, extracted from an audit log. -/
def statusesFor (job_id : String) (log : List (String × String)) : List String :=
  (log.filter (fun e => decide (e.1 = job_id))).map Prod.snd

/-- The status-transition relation asserted by the spec invariant: forward
along `pending → running → (completed | failed)`, never skipping `running`. -/
def forwardNoSkip : String → String → Bool
  | "pending", "running" => true
  | "running", "running" => true
  | "running", "completed" => true
  | "running", "failed" => true
  | _, _ => false

/-- The transition relation the code actually maintains: additionally,
dispatch-failure handling moves `pending` directly to `failed`. -/
def forwardOrDispatchFail : String → String → Bool
  | "pending", "failed" => true
  | a, b => forwardNoSkip a b

/-- Every adjacent pair of the write sequence satisfies `allowed`. -/
def chainOk (allowed : String → String → Bool) : List String → Bool
  | [] => true
  | [_] => true
  | a :: b :: rest => allowed a b && chainOk allowed (b :: rest)

/-- Statistics accumulated by `tasks.cleanup_old_jobs`. -/
structure CleanupStats where
  jobs_deleted : Nat
  files_deleted : Nat
  space_freed_bytes : Nat
  errors : List String
  deriving DecidableEq

/-- The state cleanup operates over: the jobs table and the artifact
directories on disk. -/
structure World where
  jobs : List Job
  fs : FS
  deriving DecidableEq

/-- The selection of `cleanup_old_jobs`: terminal status and `created_at`
older than the cutoff. -/
def jobSelected (cutoff : Nat) (j : Job) : Bool :=
  (decide (j.status = "completed") || decide (j.status = "failed")) && decide (j.created_at < cutoff)

/-- Remove the entry of directory `d`. -/
def removeKey (fs : FS) (d : ArtifactDir) : FS :=
  fs.filter (fun e => !(decide (e.1 = d)))

/-- Embedding of the `if path.exists(): size = ...; shutil.rmtree(path)`
block of the cleanup loop: `rmtreeErr d = some msg` models `rmtree` raising
with message `msg`.  On success, returns the new filesystem together with
the increments of `files_deleted` and `space_freed_bytes`. -/
def rmtreeIfExists (rmtreeErr : ArtifactDir → Option String) (fs : FS) (d : ArtifactDir) :
    Except String (FS × Nat × Nat) :=
  match fs.find? (fun e => decide (e.1 = d)) with
  | none => .ok (fs, 0, 0)
  | some e =>
    match rmtreeErr d with
    | some msg => .error msg
    | none => .ok (removeKey fs d, 1, e.2)

/-- Error entry appended by the cleanup loop's `except` clause. -/
def cleanupErrMsg (job_id msg : String) : String :=
  "Error cleaning up job " ++ job_id ++ ": " ++ msg

/-- One iteration of the cleanup loop over a selected job id: delete the
model directory, the export directory, then the job row, accumulating
statistics; a raise at any point is caught, recorded in `errors`, and the
iteration moves on (`tasks.py` lines 196-226). -/
def cleanup_job (rmtreeErr : ArtifactDir → Option String) (job_id : String)
    (w : World) (stats : CleanupStats) : World × CleanupStats :=
  match rmtreeIfExists rmtreeErr w.fs (.model job_id) with
  | .error msg => (w, { stats with errors := stats.errors ++ [cleanupErrMsg job_id msg] })
  | .ok (fs1, f1, s1) =>
    match rmtreeIfExists rmtreeErr fs1 (.exported job_id) with
    | .error msg =>
      ({ w with fs := fs1 },
       { stats with files_deleted := stats.files_deleted + f1,
                    space_freed_bytes := stats.space_freed_bytes + s1,
                    errors := stats.errors ++ [cleanupErrMsg job_id msg] })
    | .ok (fs2, f2, s2) =>
      ({ jobs := w.jobs.filter (fun j => !(decide (j.id = job_id))), fs := fs2 },
       { stats with files_deleted := stats.files_deleted + f1 + f2,
                    space_freed_bytes := stats.space_freed_bytes + s1 + s2,
                    jobs_deleted := stats.jobs_deleted + 1 })

/-- The cleanup loop over the snapshot of selected job ids. -/
def cleanup_run (rmtreeErr : ArtifactDir → Option String) :
    List String → World → CleanupStats → World × CleanupStats
  | [], w, stats => (w, stats)
  | jid :: rest, w, stats =>
    let step := cleanup_job rmtreeErr jid w stats
    cleanup_run rmtreeErr rest step.1 step.2

/-- Embedding of `tasks.cleanup_old_jobs`: select the terminal jobs older
than the cutoff, then run the deletion loop over that snapshot. -/
def cleanup_old_jobs (cutoff : Nat) (rmtreeErr : ArtifactDir → Option String)
    (w : World) : World × CleanupStats :=
  cleanup_run rmtreeErr ((w.jobs.filter (jobSelected cutoff)).map Job.id) w
    { jobs_deleted := 0, files_deleted := 0, space_freed_bytes := 0, errors := [] }

/-- Per-model profile of `finetuning_service.ModelConfig`. -/
structure ModelConfig where
  name : String
  display_name : String
  batch_size : Nat
  max_length : Nat
  lora_rank : Nat
  lora_alpha : Nat
  gradient_accumulation_steps : Nat
  learning_rate : Rat
  target_modules : List String
  vram_required_gb : Rat
  quality_rating : Nat
  speed_rating : Nat
  description : String
  deriving DecidableEq

/-- The `MODEL_CONFIGS` table of `finetuning_service.py`. -/
def MODEL_CONFIGS : List (String × ModelConfig) :=
  [("gpt2",
    { name := "gpt2", display_name := "GPT-2 (124M)", batch_size := 8, max_length := 512,
      lora_rank := 32, lora_alpha := 64, gradient_accumulation_steps := 2,
      learning_rate := 3/10000, target_modules := ["c_attn", "c_proj", "c_fc"],
      vram_required_gb := 2, quality_rating := 2, speed_rating := 5,
      description := "Fast, lightweight model. Good for testing and low-end hardware." }),
   ("gpt2-medium",
    { name := "gpt2-medium", display_name := "GPT-2 Medium (355M)", batch_size := 4,
      max_length := 512, lora_rank := 32, lora_alpha := 64, gradient_accumulation_steps := 4,
      learning_rate := 2/10000, target_modules := ["c_attn", "c_proj", "c_fc"],
      vram_required_gb := 7/2, quality_rating := 3, speed_rating := 4,
      description := "Better quality than GPT-2 base with reasonable speed." }),
   ("gpt2-large",
    { name := "gpt2-large", display_name := "GPT-2 Large (774M)", batch_size := 2,
      max_length := 512, lora_rank := 16, lora_alpha := 32, gradient_accumulation_steps := 8,
      learning_rate := 1/10000, target_modules := ["c_attn", "c_proj", "c_fc"],
      vram_required_gb := 5, quality_rating := 4, speed_rating := 3,
      description := "High quality results. Requires 6GB+ VRAM." }),
   ("gpt2-xl",
    { name := "gpt2-xl", display_name := "GPT-2 XL (1.5B)", batch_size := 1, max_length := 512,
      lora_rank := 16, lora_alpha := 32, gradient_accumulation_steps := 16,
      learning_rate := 5/100000, target_modules := ["c_attn", "c_proj", "c_fc"],
      vram_required_gb := 8, quality_rating := 5, speed_rating := 2,
      description := "Best GPT-2 variant. Excellent quality. Requires 8GB+ VRAM." }),
   ("distilgpt2",
    { name := "distilgpt2", display_name := "DistilGPT-2 (82M)", batch_size := 16,
      max_length := 512, lora_rank := 32, lora_alpha := 64, gradient_accumulation_steps := 1,
      learning_rate := 5/10000, target_modules := ["c_attn", "c_proj", "c_fc"],
      vram_required_gb := 3/2, quality_rating := 2, speed_rating := 5,
      description := "Fastest option, minimal VRAM usage. Good for quick experiments." }),
   ("EleutherAI/pythia-410m",
    { name := "EleutherAI/pythia-410m", display_name := "Pythia 410M", batch_size := 4,
      max_length := 512, lora_rank := 32, lora_alpha := 64, gradient_accumulation_steps := 4,
      learning_rate := 2/10000,
      target_modules := ["query_key_value", "dense", "dense_h_to_4h", "dense_4h_to_h"],
      vram_required_gb := 3, quality_rating := 3, speed_rating := 4,
      description := "Open-source model trained on diverse data. Good for general purposes." }),
   ("EleutherAI/pythia-1b",
    { name := "EleutherAI/pythia-1b", display_name := "Pythia 1B", batch_size := 2,
      max_length := 512, lora_rank := 16, lora_alpha := 32, gradient_accumulation_steps := 8,
      learning_rate := 1/10000,
      target_modules := ["query_key_value", "dense", "dense_h_to_4h", "dense_4h_to_h"],
      vram_required_gb := 11/2, quality_rating := 4, speed_rating := 3,
      description := "Larger Pythia model. Great balance of quality and efficiency." }),
   ("facebook/opt-350m",
    { name := "facebook/opt-350m", display_name := "OPT 350M (Meta)", batch_size := 4,
      max_length := 512, lora_rank := 32, lora_alpha := 64, gradient_accumulation_steps := 4,
      learning_rate := 2/10000,
      target_modules := ["q_proj", "k_proj", "v_proj", "out_proj", "fc1", "fc2"],
      vram_required_gb := 7/2, quality_rating := 3, speed_rating := 4,
      description := "Meta's OPT model. Well-trained on high-quality data." }),
   ("facebook/opt-1.3b",
    { name := "facebook/opt-1.3b", display_name := "OPT 1.3B (Meta)", batch_size := 2,
      max_length := 512, lora_rank := 16, lora_alpha := 32, gradient_accumulation_steps := 8,
      learning_rate := 1/10000,
      target_modules := ["q_proj", "k_proj", "v_proj", "out_proj", "fc1", "fc2"],
      vram_required_gb := 13/2, quality_rating := 4, speed_rating := 2,
      description := "Larger OPT model. High quality for 6GB+ hardware." }),
   ("cerebras/Cerebras-GPT-590M",
    { name := "cerebras/Cerebras-GPT-590M", display_name := "Cerebras-GPT 590M",
      batch_size := 3, max_length := 512, lora_rank := 32, lora_alpha := 64,
      gradient_accumulation_steps := 6, learning_rate := 15/100000,
      target_modules := ["c_attn", "c_proj", "c_fc"],
      vram_required_gb := 4, quality_rating := 3, speed_rating := 3,
      description := "Cerebras GPT architecture. Good quality/speed tradeoff." }),
   ("bigscience/bloom-560m",
    { name := "bigscience/bloom-560m", display_name := "BLOOM 560M", batch_size := 3,
      max_length := 512, lora_rank := 32, lora_alpha := 64, gradient_accumulation_steps := 6,
      learning_rate := 15/100000,
      target_modules := ["query_key_value", "dense", "dense_h_to_4h", "dense_4h_to_h"],
      vram_required_gb := 4, quality_rating := 3, speed_rating := 3,
      description := "Multilingual model trained on 46 languages. Great for international use." }),
   ("bigscience/bloom-1b1",
    { name := "bigscience/bloom-1b1", display_name := "BLOOM 1.1B", batch_size := 2,
      max_length := 512, lora_rank := 16, lora_alpha := 32, gradient_accumulation_steps := 8,
      learning_rate := 1/10000,
      target_modules := ["query_key_value", "dense", "dense_h_to_4h", "dense_4h_to_h"],
      vram_required_gb := 11/2, quality_rating := 4, speed_rating := 3,
      description := "Larger multilingual BLOOM. Excellent for diverse languages." })]

/-- The generic default profile returned by
`FinetuningService.get_model_config` for unknown model identifiers. -/
def default_model_config (model_name : String) : ModelConfig :=
  { name := model_name, display_name := model_name, batch_size := 4, max_length := 512,
    lora_rank := 16, lora_alpha := 32, gradient_accumulation_steps := 2,
    learning_rate := 2/10000, target_modules := ["q_proj", "v_proj", "o_proj"],
    vram_required_gb := 4, quality_rating := 3, speed_rating := 3,
    description := "Custom model with default configuration" }

/-- Embedding of `FinetuningService.get_model_config`: the table entry when
present, the generic default profile otherwise. -/
def get_model_config (model_name : String) : ModelConfig :=
  match MODEL_CONFIGS.lookup model_name with
  | some c => c
  | none => default_model_config model_name

/-- The hyperparameters actually used by training. -/
structure ResolvedHyperparams where
  learning_rate : Rat
  batch_size : Nat
  max_length : Nat
  deriving DecidableEq

/-- Hyperparameter resolution at the start of `FinetuningService.finetune`
(lines 429-439): each value left `None` by the request falls back to the
resolved model profile. -/
def finetune_resolve_hyperparams (model_name : String) (learning_rate : Option Rat)
    (batch_size : Option Nat) (max_length : Option Nat) : ResolvedHyperparams :=
  let model_config := get_model_config model_name
  { learning_rate := learning_rate.getD model_config.learning_rate,
    batch_size := batch_size.getD model_config.batch_size,
    max_length := max_length.getD model_config.max_length }

/-- A cleanup iteration over job id `jid` is stuck against filesystem `fs`:
deleting the first still-existing artifact directory of the job raises.  A
stuck iteration records an error and changes nothing. -/
def stuckDir (rmtreeErr : ArtifactDir → Option String) (fs : FS) (jid : String) : Prop :=
  (ArtifactDir.model jid ∈ dirs fs ∧ rmtreeErr (ArtifactDir.model jid) ≠ none) ∨
  (ArtifactDir.model jid ∉ dirs fs ∧ ArtifactDir.exported jid ∈ dirs fs ∧
    rmtreeErr (ArtifactDir.exported jid) ≠ none)

/-- Fixture dataset used by the concrete scenarios below. -/
def dsFixture : Dataset := { id := "ds-1", file_path := "./data/uploads/ds-1.csv" }

/-- Fixture request referencing `dsFixture`, optional hyperparameters unset. -/
def reqFixture : FinetuneRequest :=
  { dataset_id := "ds-1", model_name := "gpt2", learning_rate := none, num_epochs := 5,
    batch_size := none, max_length := none }

/-- Fixture store holding the dataset and one pending job row. -/
def storeFixture : Store := { datasets := [dsFixture], jobs := [newJobRow "job-1" "ds-1" 0] }

/-- Trainer environments of Scenario C: the Trainer raises on the first and
second execution attempt and succeeds on the third. -/
def scenarioCEnvs : Nat → ExecEnv := fun k =>
  if k < 2 then { trainer := .raise [] "CUDA out of memory", now := 10 + k }
  else { trainer := .ok [] [("final_train_loss", "0.42")], now := 10 + k }

/-- A job row already in the terminal `completed` state. -/
def completedJobFixture : Job :=
  { id := "job-done", dataset_id := "ds-1", status := "completed", progress := 100,
    message := some "Fine-tuning completed successfully!", created_at := 0, updated_at := 3,
    meta := some { trainer := [], model_path := "./data/models/job-done" } }

/-- A job row still in the `running` state. -/
def runningJobFixture : Job :=
  { id := "job-run", dataset_id := "ds-1", status := "running", progress := 40,
    message := some "Training...", created_at := 0, updated_at := 3, meta := none }

/-- Scenario E world: one completed job and one running job, both older than
the cutoff, with their artifact directories on disk. -/
def scenarioEWorld : World :=
  { jobs := [completedJobFixture, runningJobFixture],
    fs := [(.model "job-done", 1000), (.exported "job-done", 500), (.model "job-run", 800)] }

/-- Executor environment whose Trainer succeeds immediately. -/
def okEnv : ExecEnv := { trainer := .ok [] [("final_train_loss", "0.42")], now := 11 }

/-- The row of `storeFixture`'s job after a successful executor run under
`okEnv`. -/
def c6CompletedRow : Job :=
  { id := "job-1", dataset_id := "ds-1", status := "completed", progress := 100,
    message := some "Fine-tuning completed successfully!", created_at := 0, updated_at := 11,
    meta := some { trainer := [("final_train_loss", "0.42")], model_path := "./data/models/job-1" } }

/-- The row matching the id is rewritten by the executor status update. -/
theorem mem_executorUpdateJobStatus {jobs : List Job} {j : Job} (hj : j ∈ jobs)
    {job_id : String} (hid : j.id = job_id) (s : String) (p : Rat) (m : Option String)
    (now : Nat) :
    { j with status := s, progress := p, message := m, updated_at := now } ∈
      executorUpdateJobStatus jobs job_id s p m now := by
  have hf : (fun k => if decide (k.id = job_id) then
      { k with status := s, progress := p, message := m, updated_at := now } else k) j =
      { j with status := s, progress := p, message := m, updated_at := now } := by simp [hid]
  exact hf ▸ List.mem_map_of_mem _ hj

/-- The row matching the id is rewritten by `update_job_status`. -/
theorem mem_update_job_status {jobs : List Job} {j : Job} (hj : j ∈ jobs)
    {job_id : String} (hid : j.id = job_id) (s m : String) :
    { j with status := s, message := some m } ∈ (update_job_status false jobs job_id s m).1 := by
  have hf : (fun k => if decide (k.id = job_id) then
      { k with status := s, message := some m } else k) j =
      { j with status := s, message := some m } := by simp [hid]
  exact hf ▸ List.mem_map_of_mem _ hj

/-- A row of the executor status update result carrying the written id comes
from a source row with that id and has the written fields. -/
theorem executorUpdateJobStatus_mem_elim {jobs : List Job} {job_id s : String} {p : Rat}
    {m : Option String} {now : Nat} {j : Job}
    (hj : j ∈ executorUpdateJobStatus jobs job_id s p m now) (hid : j.id = job_id) :
    ∃ k, k ∈ jobs ∧ k.id = job_id ∧
      j = { k with status := s, progress := p, message := m, updated_at := now } := by
  obtain ⟨k, hk, hfk⟩ := List.mem_map.mp hj
  by_cases hkid : k.id = job_id
  · exact ⟨k, hk, hkid, by rw [← hfk]; simp [hkid]⟩
  · rw [← hfk] at hid
    simp [hkid] at hid

/-- A row of the `setJobMeta` result carrying the written id comes from a
source row with that id and carries the written metadata. -/
theorem setJobMeta_mem_elim {jobs : List Job} {job_id : String} {m : JobMeta} {j : Job}
    (hj : j ∈ setJobMeta jobs job_id m) (hid : j.id = job_id) :
    ∃ k, k ∈ jobs ∧ k.id = job_id ∧ j = { k with meta := some m } := by
  obtain ⟨k, hk, hfk⟩ := List.mem_map.mp hj
  by_cases hkid : k.id = job_id
  · exact ⟨k, hk, hkid, by rw [← hfk]; simp [hkid]⟩
  · rw [← hfk] at hid
    simp [hkid] at hid

/-- The model output path string is never empty. -/
theorem modelOutputDirPath_ne_empty (job_id : String) : modelOutputDirPath job_id ≠ "" := by
  intro h
  have hlen := congrArg String.length h
  rw [modelOutputDirPath, String.length_append] at hlen
  have h14 : ("./data/models/" : String).length = 14 := rfl
  have h0 : ("" : String).length = 0 := rfl
  rw [h14, h0] at hlen
  omega

/-- Making a directory makes it exist. -/
theorem mem_dirs_mkdirP (fs : FS) (d : ArtifactDir) : d ∈ dirs (mkdirP fs d) := by
  unfold mkdirP
  by_cases h : d ∈ dirs fs
  · rw [if_pos h]; exact h
  · rw [if_neg h]
    simp [dirs]

/-- C9: model-configuration resolution is a pure function of the model
identifier: names present in `MODEL_CONFIGS` resolve to their table profile,
unknown names resolve to the single generic default profile, and each
hyperparameter left `None` by the request takes its value from the resolved
profile while a specified one is used as given. -/
theorem C9_model_config_resolution :
    (∀ name c, MODEL_CONFIGS.lookup name = some c → get_model_config name = c) ∧
    (∀ name, MODEL_CONFIGS.lookup name = none →
      get_model_config name = default_model_config name) ∧
    (∀ name bs ml, (finetune_resolve_hyperparams name none bs ml).learning_rate =
      (get_model_config name).learning_rate) ∧
    (∀ name lr ml, (finetune_resolve_hyperparams name lr none ml).batch_size =
      (get_model_config name).batch_size) ∧
    (∀ name lr bs, (finetune_resolve_hyperparams name lr bs none).max_length =
      (get_model_config name).max_length) ∧
    (∀ name v bs ml, (finetune_resolve_hyperparams name (some v) bs ml).learning_rate = v) ∧
    (∀ name lr v ml, (finetune_resolve_hyperparams name lr (some v) ml).batch_size = v) ∧
    (∀ name lr bs v, (finetune_resolve_hyperparams name lr bs (some v)).max_length = v) := by
  refine ⟨?_, ?_, ?_, ?_, ?_, ?_, ?_, ?_⟩
  · intro name c h
    simp [get_model_config, h]
  · intro name h
    simp [get_model_config, h]
  all_goals intros; rfl

/-- Witness for C9 at concrete inputs: the known name `gpt2` resolves to its
table profile, an unknown name to the generic default, and `None`
hyperparameters take profile values while given ones are used as-is. -/
theorem C9_model_config_resolution_witness :
    (get_model_config "gpt2").batch_size = 8 ∧
    (get_model_config "totally-unknown-model").batch_size = 4 ∧
    (finetune_resolve_hyperparams "gpt2" none none none).learning_rate = 3/10000 ∧
    (finetune_resolve_hyperparams "gpt2" (some (1/100000)) none none).learning_rate =
      1/100000 := by
  obtain ⟨h1, h2, h3, _, _, h6, _, _⟩ := C9_model_config_resolution
  refine ⟨?_, ?_, ?_, ?_⟩
  · rw [h1 "gpt2" _ rfl]
  · rw [h2 "totally-unknown-model" rfl]; rfl
  · rw [h3 "gpt2" none none, h1 "gpt2" _ rfl]
  · rw [h6 "gpt2" (1/100000) none none]

/-- C10: the record-store helpers catch every storage I/O error and convert
it to a `false` return with the store unchanged, and consequently the
submission route answers a storage error during the existence check with the
same 404 `Dataset not found` response as a genuinely missing dataset. -/
theorem C10_storage_errors_swallowed :
    (∀ datasets dataset_id, dataset_exists true datasets dataset_id = false) ∧
    (∀ jobs job_id dataset_id t,
      create_job_record true jobs job_id dataset_id t = (jobs, false)) ∧
    (∀ datasets m, create_dataset_record true datasets m = (datasets, false)) ∧
    (∀ jobs job_id s msg, update_job_status true jobs job_id s msg = (jobs, false)) ∧
    (∀ (o o' : SubmitOracle) (st st' : Store) (jid jid' : String) (now now' : Nat)
       (req : FinetuneRequest),
      o.existsErr = true → o'.existsErr = false →
      st'.datasets.any (fun d => decide (d.id = req.dataset_id)) = false →
      (start_finetuning o st jid now req).2.1 =
        SubmitResponse.httpError 404 ("Dataset " ++ req.dataset_id ++ " not found") ∧
      (start_finetuning o' st' jid' now' req).2.1 =
        SubmitResponse.httpError 404 ("Dataset " ++ req.dataset_id ++ " not found") ∧
      (start_finetuning o st jid now req).1 = st ∧
      (start_finetuning o' st' jid' now' req).1 = st') := by
  refine ⟨fun _ _ => rfl, fun _ _ _ _ => rfl, fun _ _ => rfl, fun _ _ _ _ => rfl, ?_⟩
  intro o o' st st' jid jid' now now' req h1 h2 h3
  refine ⟨?_, ?_, ?_, ?_⟩ <;>
    simp [start_finetuning, dataset_exists, dbOp, h1, h2, h3]

/-- Witness for C10 at concrete inputs: with a storage error the existence
check returns false, the writers report failure without changing the store,
and submission for an existing dataset under a storage error yields the very
404 response of a missing dataset. -/
theorem C10_storage_errors_swallowed_witness :
    dataset_exists true [dsFixture] "ds-1" = false ∧
    create_job_record true [] "job-1" "ds-1" 0 = ([], false) ∧
    create_dataset_record true [] dsFixture = ([], false) ∧
    update_job_status true [] "job-1" "failed" "m" = ([], false) ∧
    (start_finetuning ⟨true, false, false, none⟩ storeFixture "job-2" 5 reqFixture).2.1 =
      SubmitResponse.httpError 404 "Dataset ds-1 not found" ∧
    (start_finetuning ⟨false, false, false, none⟩ ⟨[], []⟩ "job-2" 5 reqFixture).2.1 =
      SubmitResponse.httpError 404 "Dataset ds-1 not found" := by
  obtain ⟨h1, h2, h3, h4, h5⟩ := C10_storage_errors_swallowed
  obtain ⟨r1, r2, -, -⟩ :=
    h5 ⟨true, false, false, none⟩ ⟨false, false, false, none⟩ storeFixture ⟨[], []⟩
      "job-2" "job-2" 5 5 reqFixture rfl rfl (by decide)
  exact ⟨h1 [dsFixture] "ds-1", h2 [] "job-1" "ds-1" 0, h3 [] dsFixture,
    h4 [] "job-1" "failed" "m", r1, r2⟩

/-- C4 counterexample: terminal states are not fixed points of the update
operations — both `update_job_status` and the executor-local status update
overwrite a `completed` job's status unconditionally. -/
theorem C4_terminal_status_overwritten :
    completedJobFixture.status = "completed" ∧
    (update_job_status false [completedJobFixture] "job-done" "running"
        "late update from a superseded attempt").1 =
      [{ completedJobFixture with status := "running", message := some "late update from a superseded attempt" }] ∧
    executorUpdateJobStatus [completedJobFixture] "job-done" "running" 55
        (some "epoch 2/5") 9 =
      [{ completedJobFixture with status := "running", progress := 55, message := some "epoch 2/5", updated_at := 9 }] :=
  ⟨rfl, by simp [update_job_status, dbOp, completedJobFixture],
    by simp [executorUpdateJobStatus, completedJobFixture]⟩

/-- C4 amended: the status-write operations perform no terminal-state guard
at all — for the row matching the id, both updates unconditionally replace
status (and message, and for the executor variant progress and updated_at),
whatever the current status, terminal included. -/
theorem C4_status_updates_unguarded :
    ∀ (jobs : List Job) (job_id s m : String) (p : Rat) (msg : Option String) (now : Nat)
      (j : Job), j ∈ jobs → j.id = job_id →
      { j with status := s, message := some m } ∈ (update_job_status false jobs job_id s m).1 ∧
      { j with status := s, progress := p, message := msg, updated_at := now } ∈
        executorUpdateJobStatus jobs job_id s p msg now := by
  intro jobs job_id s m p msg now j hj hid
  exact ⟨mem_update_job_status hj hid s m, mem_executorUpdateJobStatus hj hid s p msg now⟩

/-- Witness for C4 amended at a concrete input: a completed row is rewritten
to `running` by both update operations. -/
theorem C4_status_updates_unguarded_witness :
    { completedJobFixture with status := "running", message := some "late" } ∈
      (update_job_status false [completedJobFixture] "job-done" "running" "late").1 ∧
    { completedJobFixture with status := "running", progress := 55, message := some "epoch 2/5", updated_at := 9 } ∈
      executorUpdateJobStatus [completedJobFixture] "job-done" "running" 55
        (some "epoch 2/5") 9 := by
  have h := C4_status_updates_unguarded [completedJobFixture] "job-done" "running" "late"
    55 (some "epoch 2/5") 9 completedJobFixture (by simp) rfl
  exact ⟨h.1, (C4_status_updates_unguarded [completedJobFixture] "job-done" "running" "x"
    55 (some "epoch 2/5") 9 completedJobFixture (by simp) rfl).2⟩

/-- C2 counterexample: when the enqueue raises, the submission route does not
return a successful response — it raises HTTP 500 — even though the job row
was created and marked failed (visible via status polling). -/
theorem C2_dispatch_failure_not_success_response :
    ((start_finetuning ⟨false, false, false, some "broker unavailable"⟩ storeFixture
        "job-2" 7 reqFixture).2.1).isOk = false ∧
    (start_finetuning ⟨false, false, false, some "broker unavailable"⟩ storeFixture
        "job-2" 7 reqFixture).2.1 =
      SubmitResponse.httpError 500 "Failed to submit job to queue: broker unavailable" ∧
    (get_training_status (start_finetuning ⟨false, false, false, some "broker unavailable"⟩
        storeFixture "job-2" 7 reqFixture).1 "job-2").map Job.status = some "failed" := by
  refine ⟨rfl, ?_, ?_⟩ <;> rfl

/-- C2 amended: on enqueue failure the submission marks the already-created
Job row `failed` (keeping the row, so polling the job id shows the failure)
but answers the caller with an HTTP 500 error response rather than success. -/
theorem C2_dispatch_failure_marks_failed_raises_500 :
    ∀ (st : Store) (job_id : String) (now : Nat) (req : FinetuneRequest) (e : String),
      dataset_exists false st.datasets req.dataset_id = true →
      (∀ j ∈ st.jobs, j.id ≠ job_id) →
      (start_finetuning ⟨false, false, false, some e⟩ st job_id now req).2.1 =
        SubmitResponse.httpError 500 ("Failed to submit job to queue: " ++ e) ∧
      get_training_status
          (start_finetuning ⟨false, false, false, some e⟩ st job_id now req).1 job_id =
        some { newJobRow job_id req.dataset_id now with status := "failed", message := some ("Failed to submit job: " ++ e) } := by
  intro st job_id now req e hds hfresh
  constructor
  · simp [start_finetuning, hds, create_job_record, dbOp]
  · have hjobs : (start_finetuning ⟨false, false, false, some e⟩ st job_id now req).1.jobs =
        (st.jobs ++ [newJobRow job_id req.dataset_id now]).map
          (fun k => if decide (k.id = job_id) then
            { k with status := "failed", message := some ("Failed to submit job: " ++ e) }
          else k) := by
      simp [start_finetuning, hds, create_job_record, dbOp, update_job_status]
    rw [get_training_status, hjobs, List.map_append, List.find?_append]
    have h1 : (st.jobs.map (fun k => if decide (k.id = job_id) then
        { k with status := "failed", message := some ("Failed to submit job: " ++ e) }
        else k)).find? (fun j => decide (j.id = job_id)) = none := by
      rw [List.find?_eq_none]
      intro x hx
      obtain ⟨j, hj, rfl⟩ := List.mem_map.mp hx
      simp [hfresh j hj]
    rw [h1]
    simp [newJobRow]

/-- Witness for C2 amended at a concrete input: enqueue raising on a store
that holds the dataset yields the 500 response and a failed job row. -/
theorem C2_dispatch_failure_marks_failed_raises_500_witness :
    (start_finetuning ⟨false, false, false, some "broker unavailable"⟩ storeFixture
        "job-2" 7 reqFixture).2.1 =
      SubmitResponse.httpError 500 "Failed to submit job to queue: broker unavailable" ∧
    get_training_status (start_finetuning ⟨false, false, false, some "broker unavailable"⟩
        storeFixture "job-2" 7 reqFixture).1 "job-2" =
      some { newJobRow "job-2" "ds-1" 7 with status := "failed", message := some "Failed to submit job: broker unavailable" } :=
  C2_dispatch_failure_marks_failed_raises_500 storeFixture "job-2" 7 reqFixture
    "broker unavailable" (by decide) (by decide)

/-- C5: when the dataset row of the job is absent, the executor transitions
the job to `failed` with an explanatory message and returns normally (no
raise), so the dispatcher makes exactly one attempt and never retries. -/
theorem C5_missing_dataset_fails_permanently :
    ∀ (envs : Nat → ExecEnv) (st : Store) (fs : FS) (job_id dataset_id : String),
      st.datasets.find? (fun d => decide (d.id = dataset_id)) = none →
      (finetune_model_with_retries envs job_id dataset_id st fs).2.2 = 1 ∧
      (finetune_model_with_retries envs job_id dataset_id st fs).2.1 = fs ∧
      (run_finetuning (envs 0) st fs job_id dataset_id).result_status = "failed" ∧
      (∀ j ∈ st.jobs, j.id = job_id →
        { j with status := "failed", progress := 0, message := some ("Dataset " ++ dataset_id ++ " not found"), updated_at := (envs 0).now } ∈
          (finetune_model_with_retries envs job_id dataset_id st fs).1.jobs) := by
  intro envs st fs job_id dataset_id h
  have hdrive : finetune_model_with_retries envs job_id dataset_id st fs =
      ((run_finetuning (envs 0) st fs job_id dataset_id).store,
       (run_finetuning (envs 0) st fs job_id dataset_id).fs, 1) := by
    simp [finetune_model_with_retries, celery_drive, finetune_model]
  have hjobs : (run_finetuning (envs 0) st fs job_id dataset_id).store.jobs =
      executorUpdateJobStatus (executorUpdateJobStatus st.jobs job_id "running" 0 (some "Initializing fine-tuning...") (envs 0).now) job_id "failed" 0 (some ("Dataset " ++ dataset_id ++ " not found")) (envs 0).now := by
    simp [run_finetuning, h]
  have hfs : (run_finetuning (envs 0) st fs job_id dataset_id).fs = fs := by
    simp [run_finetuning, h]
  have hst : (run_finetuning (envs 0) st fs job_id dataset_id).result_status = "failed" := by
    simp [run_finetuning, h]
  refine ⟨by rw [hdrive], by rw [hdrive]; exact hfs, hst, ?_⟩
  intro j hj hid
  rw [hdrive]
  show _ ∈ (run_finetuning (envs 0) st fs job_id dataset_id).store.jobs
  rw [hjobs]
  exact mem_executorUpdateJobStatus
    (mem_executorUpdateJobStatus hj hid "running" 0 (some "Initializing fine-tuning...")
      (envs 0).now)
    (by simp [hid]) "failed" 0 (some ("Dataset " ++ dataset_id ++ " not found")) (envs 0).now

/-- Witness for C5 at a concrete input: a job referencing a missing dataset
id fails with the explanatory message after exactly one attempt. -/
theorem C5_missing_dataset_fails_permanently_witness :
    (finetune_model_with_retries scenarioCEnvs "job-1" "ds-gone" storeFixture []).2.2 = 1 ∧
    { newJobRow "job-1" "ds-1" 0 with status := "failed", progress := 0, message := some "Dataset ds-gone not found", updated_at := 10 } ∈
      (finetune_model_with_retries scenarioCEnvs "job-1" "ds-gone" storeFixture []).1.jobs := by
  have h := C5_missing_dataset_fails_permanently scenarioCEnvs storeFixture [] "job-1"
    "ds-gone" (by decide)
  exact ⟨h.1, h.2.2.2 (newJobRow "job-1" "ds-1" 0) (by simp [storeFixture]) rfl⟩

/-- C1: Scenario C run against the code — the Trainer raises on attempts one
and two and would succeed on attempt three, yet the executor catches the
exception inside `_run_finetuning` and returns a failure dictionary instead
of re-raising, so the dispatcher's autoretry never fires: exactly one
execution attempt is made and the job ends `failed`, not `completed`. -/
theorem C1_trainer_failures_never_retried :
    (scenarioCEnvs 0).trainer = .raise [] "CUDA out of memory" ∧
    (scenarioCEnvs 1).trainer = .raise [] "CUDA out of memory" ∧
    (scenarioCEnvs 2).trainer = .ok [] [("final_train_loss", "0.42")] ∧
    (finetune_model_with_retries scenarioCEnvs "job-1" "ds-1" storeFixture []).2.2 = 1 ∧
    (get_training_status
        (finetune_model_with_retries scenarioCEnvs "job-1" "ds-1" storeFixture []).1
        "job-1").map Job.status = some "failed" ∧
    (get_training_status
        (finetune_model_with_retries scenarioCEnvs "job-1" "ds-1" storeFixture []).1
        "job-1").map Job.message = some (some "Fine-tuning failed: CUDA out of memory") := by
  refine ⟨rfl, rfl, rfl, rfl, ?_, ?_⟩ <;> rfl

/-- C6: whenever the executor run leaves the executed job's row in status
`completed`, that row's `meta` holds a non-empty `model_path` naming the
job's model output directory, and that directory exists in the filesystem
after the run. -/
theorem C6_completed_requires_model_path :
    ∀ (env : ExecEnv) (st : Store) (fs : FS) (job_id dataset_id : String) (j : Job),
      j ∈ (run_finetuning env st fs job_id dataset_id).store.jobs →
      j.id = job_id → j.status = "completed" →
      ∃ m, j.meta = some m ∧ m.model_path = modelOutputDirPath job_id ∧ m.model_path ≠ "" ∧
        ArtifactDir.model job_id ∈ dirs (run_finetuning env st fs job_id dataset_id).fs := by
  intro env st fs job_id dataset_id j hj hid hstatus
  cases hfind : st.datasets.find? (fun d => decide (d.id = dataset_id)) with
  | none =>
    have hjobs : (run_finetuning env st fs job_id dataset_id).store.jobs =
        executorUpdateJobStatus (executorUpdateJobStatus st.jobs job_id "running" 0 (some "Initializing fine-tuning...") env.now) job_id "failed" 0 (some ("Dataset " ++ dataset_id ++ " not found")) env.now := by
      simp [run_finetuning, hfind]
    rw [hjobs] at hj
    obtain ⟨k, -, -, rfl⟩ := executorUpdateJobStatus_mem_elim hj hid
    simp at hstatus
  | some row =>
    cases htr : env.trainer with
    | raise updates msg =>
      have hjobs : (run_finetuning env st fs job_id dataset_id).store.jobs =
          executorUpdateJobStatus (applyProgressUpdates (executorUpdateJobStatus st.jobs job_id "running" 0 (some "Initializing fine-tuning...") env.now) job_id env.now updates).1 job_id "failed" 0 (some ("Fine-tuning failed: " ++ msg)) env.now := by
        simp [run_finetuning, hfind, htr]
      rw [hjobs] at hj
      obtain ⟨k, -, -, rfl⟩ := executorUpdateJobStatus_mem_elim hj hid
      simp at hstatus
    | ok updates metadata =>
      have hjobs : (run_finetuning env st fs job_id dataset_id).store.jobs =
          executorUpdateJobStatus (setJobMeta (applyProgressUpdates (executorUpdateJobStatus st.jobs job_id "running" 0 (some "Initializing fine-tuning...") env.now) job_id env.now updates).1 job_id { trainer := metadata, model_path := modelOutputDirPath job_id }) job_id "completed" 100 (some "Fine-tuning completed successfully!") env.now := by
        simp [run_finetuning, hfind, htr]
      have hfs : (run_finetuning env st fs job_id dataset_id).fs =
          mkdirP fs (ArtifactDir.model job_id) := by
        simp [run_finetuning, hfind, htr]
      rw [hjobs] at hj
      obtain ⟨k, hk, hkid, rfl⟩ := executorUpdateJobStatus_mem_elim hj hid
      obtain ⟨k2, hk2, hk2id, rfl⟩ := setJobMeta_mem_elim hk hkid
      rw [hfs]
      exact ⟨_, rfl, rfl, modelOutputDirPath_ne_empty job_id, mem_dirs_mkdirP fs _⟩

/-- Witness for C6 at a concrete input: a successful run on the fixture
store completes the job with the model path recorded and the directory
present. -/
theorem C6_completed_requires_model_path_witness :
    ∃ m, c6CompletedRow.meta = some m ∧ m.model_path = modelOutputDirPath "job-1" ∧
      m.model_path ≠ "" ∧
      ArtifactDir.model "job-1" ∈ dirs (run_finetuning okEnv storeFixture [] "job-1" "ds-1").fs :=
  C6_completed_requires_model_path okEnv storeFixture [] "job-1" "ds-1" c6CompletedRow
    (by decide) rfl rfl

/-- Extraction of a status trace distributes over log concatenation. -/
theorem statusesFor_append (job_id : String) (a b : List (String × String)) :
    statusesFor job_id (a ++ b) = statusesFor job_id a ++ statusesFor job_id b := by
  simp [statusesFor, List.filter_append]

/-- A log entry of the job contributes its status to the trace. -/
theorem statusesFor_cons_self (job_id s : String) (rest : List (String × String)) :
    statusesFor job_id ((job_id, s) :: rest) = s :: statusesFor job_id rest := by
  simp [statusesFor]

/-- Repeated entries of the job contribute repeated statuses. -/
theorem statusesFor_replicate (job_id s : String) (n : Nat) :
    statusesFor job_id (List.replicate n (job_id, s)) = List.replicate n s := by
  induction n with
  | zero => rfl
  | succ n ih =>
    rw [List.replicate_succ, statusesFor_cons_self, ih, List.replicate_succ]

/-- The progress-callback writes are exactly one `running` entry per
callback invocation. -/
theorem applyProgressUpdates_log (job_id : String) (now : Nat) :
    ∀ (updates : List (Rat × String)) (jobs : List Job),
      (applyProgressUpdates jobs job_id now updates).2 =
        List.replicate updates.length (job_id, "running") := by
  intro updates
  induction updates with
  | nil => intro jobs; rfl
  | cons u rest ih =>
    intro jobs
    cases u with
    | mk p m => simp [applyProgressUpdates, ih, List.replicate_succ]

/-- A chain of `running` writes ending in an allowed terminal step checks. -/
theorem chainOk_running_replicate (n : Nat) (t : String)
    (h : forwardOrDispatchFail "running" t = true) :
    chainOk forwardOrDispatchFail ("running" :: (List.replicate n "running" ++ [t])) = true := by
  induction n with
  | zero => simp [chainOk, h]
  | succ n ih =>
    rw [List.replicate_succ, List.cons_append]
    show (forwardOrDispatchFail "running" "running" &&
      chainOk forwardOrDispatchFail ("running" :: (List.replicate n "running" ++ [t]))) = true
    rw [ih]
    rfl

/-- Shape of the executor run's write log: one `running` write, one per
progress callback, then one terminal write of `completed` or `failed`. -/
theorem run_finetuning_log (env : ExecEnv) (st : Store) (fs : FS)
    (job_id dataset_id : String) :
    ∃ n t, (run_finetuning env st fs job_id dataset_id).log =
        (job_id, "running") :: (List.replicate n (job_id, "running") ++ [(job_id, t)]) ∧
      forwardOrDispatchFail "running" t = true := by
  cases hfind : st.datasets.find? (fun d => decide (d.id = dataset_id)) with
  | none =>
    exact ⟨0, "failed", by simp [run_finetuning, hfind], rfl⟩
  | some row =>
    cases htr : env.trainer with
    | raise updates msg =>
      exact ⟨updates.length, "failed",
        by simp [run_finetuning, hfind, htr, applyProgressUpdates_log], rfl⟩
    | ok updates metadata =>
      exact ⟨updates.length, "completed",
        by simp [run_finetuning, hfind, htr, applyProgressUpdates_log], rfl⟩

/-- The four result shapes of the submission route: rejection before any
write; success with a pending row written; dispatch failure with the failed
mark written; dispatch failure whose failed mark itself hit a storage
error. -/
theorem start_finetuning_result (o : SubmitOracle) (st : Store) (job_id : String)
    (now : Nat) (req : FinetuneRequest) :
    (∃ c d, start_finetuning o st job_id now req = (st, .httpError c d, [])) ∨
    (∃ st1, start_finetuning o st job_id now req =
      (st1, .ok job_id "pending" req.dataset_id "Fine-tuning job submitted successfully" now,
        [(job_id, "pending")])) ∨
    (∃ st1 c d, start_finetuning o st job_id now req =
      (st1, .httpError c d, [(job_id, "pending")])) ∨
    (∃ st1 c d, start_finetuning o st job_id now req =
      (st1, .httpError c d, [(job_id, "pending"), (job_id, "failed")])) := by
  cases hds : dataset_exists o.existsErr st.datasets req.dataset_id with
  | false =>
    exact Or.inl ⟨404, "Dataset " ++ req.dataset_id ++ " not found",
      by simp [start_finetuning, hds]⟩
  | true =>
    cases hce : o.createErr with
    | true =>
      exact Or.inl ⟨500, "Failed to create job",
        by simp [start_finetuning, hds, hce, create_job_record, dbOp]⟩
    | false =>
      cases he : o.enqueueErr with
      | none =>
        exact Or.inr (Or.inl ⟨{ st with jobs := st.jobs ++ [newJobRow job_id req.dataset_id now] },
          by simp [start_finetuning, hds, hce, he, create_job_record, dbOp]⟩)
      | some e =>
        cases hue : o.updateErr with
        | true =>
          refine Or.inr (Or.inr (Or.inl
            ⟨{ st with jobs := st.jobs ++ [newJobRow job_id req.dataset_id now] }, 500,
             "Failed to submit job to queue: " ++ e, ?_⟩))
          simp [start_finetuning, hds, hce, he, hue, create_job_record, update_job_status, dbOp]
        | false =>
          refine Or.inr (Or.inr (Or.inr
            ⟨{ st with jobs := (st.jobs ++ [newJobRow job_id req.dataset_id now]).map (fun k => if decide (k.id = job_id) then { k with status := "failed", message := some ("Failed to submit job: " ++ e) } else k) }, 500,
             "Failed to submit job to queue: " ++ e, ?_⟩))
          simp [start_finetuning, hds, hce, he, hue, create_job_record, update_job_status, dbOp]

/-- C3 counterexample: a submission whose enqueue raises writes `pending`
then `failed` for the job — a `pending → failed` transition that skips
`running`, refuting the claimed transition invariant on a concrete run. -/
theorem C3_dispatch_failure_skips_running :
    chainOk forwardNoSkip
      (statusesFor "job-2"
        (submission_then_execution ⟨false, false, false, some "broker unavailable"⟩ okEnv
          storeFixture [] "job-2" 7 reqFixture).2.2) = false := by
  rfl

/-- C3 amended: persisted status writes follow
`pending → running → (completed | failed)` with the single exception that
dispatch-failure handling moves `pending` directly to `failed`; in
particular no write ever moves a job from `pending` directly to
`completed`. -/
theorem C3_writes_forward_or_dispatch_fail :
    ∀ (o : SubmitOracle) (env : ExecEnv) (st : Store) (fs : FS) (job_id : String)
      (now : Nat) (req : FinetuneRequest),
      chainOk forwardOrDispatchFail
        (statusesFor job_id
          (submission_then_execution o env st fs job_id now req).2.2) = true := by
  intro o env st fs job_id now req
  unfold submission_then_execution
  rcases start_finetuning_result o st job_id now req with
    ⟨c, d, heq⟩ | ⟨st1, heq⟩ | ⟨st1, c, d, heq⟩ | ⟨st1, c, d, heq⟩
  · rw [heq]
    rfl
  · rw [heq]
    obtain ⟨n, t, hlog, ht⟩ := run_finetuning_log env st1 fs job_id req.dataset_id
    show chainOk forwardOrDispatchFail (statusesFor job_id
      ([(job_id, "pending")] ++ (run_finetuning env st1 fs job_id req.dataset_id).log)) = true
    rw [hlog, statusesFor_append, statusesFor_cons_self, statusesFor_cons_self,
      statusesFor_append, statusesFor_replicate, statusesFor_cons_self]
    show (forwardOrDispatchFail "pending" "running" &&
      chainOk forwardOrDispatchFail ("running" :: (List.replicate n "running" ++ [t]))) = true
    rw [chainOk_running_replicate n t ht]
    rfl
  · rw [heq]
    show chainOk forwardOrDispatchFail (statusesFor job_id [(job_id, "pending")]) = true
    rw [statusesFor_cons_self]
    rfl
  · rw [heq]
    show chainOk forwardOrDispatchFail
      (statusesFor job_id [(job_id, "pending"), (job_id, "failed")]) = true
    rw [statusesFor_cons_self, statusesFor_cons_self]
    rfl

/-- Directory membership unfolded to an entry witness. -/
theorem mem_dirs_iff {fs : FS} {d : ArtifactDir} : d ∈ dirs fs ↔ ∃ e ∈ fs, e.1 = d := by
  simp [dirs, List.mem_map]

/-- A failed directory lookup means the directory does not exist. -/
theorem find_key_none {fs : FS} {d : ArtifactDir} :
    fs.find? (fun e => decide (e.1 = d)) = none ↔ d ∉ dirs fs := by
  rw [List.find?_eq_none, mem_dirs_iff]
  constructor
  · rintro h ⟨e, he, heq⟩
    exact h e he (by simp [heq])
  · intro h e he
    simp
    intro hc
    exact h ⟨e, he, hc⟩

/-- Removing a directory removes it. -/
theorem not_mem_dirs_removeKey (fs : FS) (d : ArtifactDir) : d ∉ dirs (removeKey fs d) := by
  intro h
  obtain ⟨e, he, heq⟩ := mem_dirs_iff.mp h
  rw [removeKey] at he
  have := (List.mem_filter.mp he).2
  simp [heq] at this

/-- Removing one directory leaves the others untouched. -/
theorem mem_dirs_removeKey_of_ne {fs : FS} {d d' : ArtifactDir} (h : d' ≠ d) :
    d' ∈ dirs (removeKey fs d) ↔ d' ∈ dirs fs := by
  rw [mem_dirs_iff, mem_dirs_iff]
  constructor
  · rintro ⟨e, he, rfl⟩
    exact ⟨e, (List.mem_filter.mp he).1, rfl⟩
  · rintro ⟨e, he, rfl⟩
    refine ⟨e, List.mem_filter.mpr ⟨he, ?_⟩, rfl⟩
    simpa using h

/-- Removal only shrinks the set of directories. -/
theorem dirs_removeKey_sub {fs : FS} {k d : ArtifactDir} (h : d ∈ dirs (removeKey fs k)) :
    d ∈ dirs fs := by
  obtain ⟨e, he, heq⟩ := mem_dirs_iff.mp h
  exact mem_dirs_iff.mpr ⟨e, (List.mem_filter.mp he).1, heq⟩

/-- Removing an absent directory is a no-op. -/
theorem removeKey_of_not_mem {fs : FS} {d : ArtifactDir} (h : d ∉ dirs fs) :
    removeKey fs d = fs := by
  rw [removeKey]
  apply List.filter_eq_self.mpr
  intro e he
  simp
  intro hc
  exact h (mem_dirs_iff.mpr ⟨e, he, hc⟩)

/-- Case analysis of one `rmtree`-if-exists step. -/
theorem rmtreeIfExists_cases (rmtreeErr : ArtifactDir → Option String) (fs : FS)
    (d : ArtifactDir) :
    (d ∉ dirs fs ∧ rmtreeIfExists rmtreeErr fs d = .ok (fs, 0, 0)) ∨
    (d ∈ dirs fs ∧ ∃ msg, rmtreeErr d = some msg ∧
      rmtreeIfExists rmtreeErr fs d = .error msg) ∨
    (d ∈ dirs fs ∧ rmtreeErr d = none ∧
      ∃ sz, rmtreeIfExists rmtreeErr fs d = .ok (removeKey fs d, 1, sz)) := by
  unfold rmtreeIfExists
  cases hf : fs.find? (fun e => decide (e.1 = d)) with
  | none => exact Or.inl ⟨find_key_none.mp hf, rfl⟩
  | some e =>
    have hmem : d ∈ dirs fs := by
      have h1 := List.find?_some hf
      have h2 := List.mem_of_find?_eq_some hf
      exact mem_dirs_iff.mpr ⟨e, h2, of_decide_eq_true h1⟩
    cases he : rmtreeErr d with
    | some msg => exact Or.inr (Or.inl ⟨hmem, msg, rfl, rfl⟩)
    | none => exact Or.inr (Or.inr ⟨hmem, rfl, e.2, rfl⟩)

/-- The two artifact directories of distinct jobs, and the model and export
directory of any jobs, are distinct. -/
theorem artifactDir_model_ne_exported (a b : String) :
    ArtifactDir.model a ≠ ArtifactDir.exported b := by
  intro h
  exact ArtifactDir.noConfusion h

/-- Case analysis of one cleanup iteration: the model deletion raises and
nothing changes; the export deletion raises and only the model directory was
removed; or the iteration succeeds, deleting the job's directories and
rows.  Each error branch records one error and leaves the deletion counter
alone, and leaves the iteration stuck for any later identical sweep. -/
theorem cleanup_job_shape (rmtreeErr : ArtifactDir → Option String) (jid : String)
    (w : World) (stats : CleanupStats) :
    ((cleanup_job rmtreeErr jid w stats).1 = w ∧
      (∃ msg, rmtreeErr (ArtifactDir.model jid) = some msg ∧ (cleanup_job rmtreeErr jid w stats).2.errors = stats.errors ++ [cleanupErrMsg jid msg]) ∧
      (cleanup_job rmtreeErr jid w stats).2.jobs_deleted = stats.jobs_deleted ∧
      stuckDir rmtreeErr w.fs jid) ∨
    ((cleanup_job rmtreeErr jid w stats).1 = { jobs := w.jobs, fs := removeKey w.fs (ArtifactDir.model jid) } ∧
      (∃ msg, rmtreeErr (ArtifactDir.exported jid) = some msg ∧ (cleanup_job rmtreeErr jid w stats).2.errors = stats.errors ++ [cleanupErrMsg jid msg]) ∧
      (cleanup_job rmtreeErr jid w stats).2.jobs_deleted = stats.jobs_deleted ∧
      (ArtifactDir.model jid ∈ dirs w.fs → rmtreeErr (ArtifactDir.model jid) = none) ∧
      stuckDir rmtreeErr (removeKey w.fs (ArtifactDir.model jid)) jid) ∨
    ((cleanup_job rmtreeErr jid w stats).1 = { jobs := w.jobs.filter (fun j => !(decide (j.id = jid))), fs := removeKey (removeKey w.fs (ArtifactDir.model jid)) (ArtifactDir.exported jid) } ∧
      (cleanup_job rmtreeErr jid w stats).2.errors = stats.errors ∧
      (cleanup_job rmtreeErr jid w stats).2.jobs_deleted = stats.jobs_deleted + 1 ∧
      (ArtifactDir.model jid ∈ dirs w.fs → rmtreeErr (ArtifactDir.model jid) = none) ∧
      (ArtifactDir.exported jid ∈ dirs w.fs → rmtreeErr (ArtifactDir.exported jid) = none)) := by
  have hne : ArtifactDir.exported jid ≠ ArtifactDir.model jid :=
    fun h => ArtifactDir.noConfusion h
  rcases rmtreeIfExists_cases rmtreeErr w.fs (ArtifactDir.model jid) with
    ⟨hmnot, hmeq⟩ | ⟨hmmem, msg, herr, hmeq⟩ | ⟨hmmem, herr, sz, hmeq⟩
  · rcases rmtreeIfExists_cases rmtreeErr w.fs (ArtifactDir.exported jid) with
      ⟨henot, heeq⟩ | ⟨hemem, msg2, herr2, heeq⟩ | ⟨hemem, herr2, sz2, heeq⟩
    · refine Or.inr (Or.inr ⟨?_, ?_, ?_, fun hmem => absurd hmem hmnot,
        fun hmem => absurd hmem henot⟩) <;>
        simp [cleanup_job, hmeq, heeq, removeKey_of_not_mem hmnot, removeKey_of_not_mem henot]
    · refine Or.inr (Or.inl ⟨?_, ⟨msg2, herr2, ?_⟩, ?_, fun hmem => absurd hmem hmnot, ?_⟩)
      · simp [cleanup_job, hmeq, heeq, removeKey_of_not_mem hmnot]
      · simp [cleanup_job, hmeq, heeq]
      · simp [cleanup_job, hmeq, heeq]
      · refine Or.inr ⟨?_, ?_, ?_⟩
        · rw [removeKey_of_not_mem hmnot]; exact hmnot
        · rw [removeKey_of_not_mem hmnot]; exact hemem
        · simp [herr2]
    · refine Or.inr (Or.inr ⟨?_, ?_, ?_, fun hmem => absurd hmem hmnot, fun _ => herr2⟩) <;>
        simp [cleanup_job, hmeq, heeq, removeKey_of_not_mem hmnot]
  · refine Or.inl ⟨?_, ⟨msg, herr, ?_⟩, ?_, Or.inl ⟨hmmem, by simp [herr]⟩⟩ <;>
      simp [cleanup_job, hmeq]
  · rcases rmtreeIfExists_cases rmtreeErr (removeKey w.fs (ArtifactDir.model jid))
      (ArtifactDir.exported jid) with
      ⟨henot, heeq⟩ | ⟨hemem, msg2, herr2, heeq⟩ | ⟨hemem, herr2, sz2, heeq⟩
    · refine Or.inr (Or.inr ⟨?_, ?_, ?_, fun _ => herr,
        fun hmem => absurd ((mem_dirs_removeKey_of_ne hne).mpr hmem) henot⟩) <;>
        simp [cleanup_job, hmeq, heeq, removeKey_of_not_mem henot]
    · refine Or.inr (Or.inl ⟨?_, ⟨msg2, herr2, ?_⟩, ?_, fun _ => herr, ?_⟩)
      · simp [cleanup_job, hmeq, heeq]
      · simp [cleanup_job, hmeq, heeq]
      · simp [cleanup_job, hmeq, heeq]
      · exact Or.inr ⟨not_mem_dirs_removeKey w.fs _, hemem, by simp [herr2]⟩
    · refine Or.inr (Or.inr ⟨?_, ?_, ?_, fun _ => herr,
        fun _ => herr2⟩) <;>
        simp [cleanup_job, hmeq, heeq]

/-- Rows are never created by a cleanup iteration. -/
theorem cleanup_job_jobs_mono {rmtreeErr : ArtifactDir → Option String} {jid : String}
    {w : World} {stats : CleanupStats} {j : Job}
    (h : j ∈ (cleanup_job rmtreeErr jid w stats).1.jobs) : j ∈ w.jobs := by
  rcases cleanup_job_shape rmtreeErr jid w stats with ⟨h1, -⟩ | ⟨h1, -⟩ | ⟨h1, -⟩ <;>
    rw [h1] at h
  · exact h
  · exact h
  · exact (List.mem_filter.mp h).1

/-- Directories are never created by a cleanup iteration. -/
theorem cleanup_job_dirs_mono {rmtreeErr : ArtifactDir → Option String} {jid : String}
    {w : World} {stats : CleanupStats} {d : ArtifactDir}
    (h : d ∈ dirs (cleanup_job rmtreeErr jid w stats).1.fs) : d ∈ dirs w.fs := by
  rcases cleanup_job_shape rmtreeErr jid w stats with ⟨h1, -⟩ | ⟨h1, -⟩ | ⟨h1, -⟩ <;>
    rw [h1] at h
  · exact h
  · exact dirs_removeKey_sub h
  · exact dirs_removeKey_sub (dirs_removeKey_sub h)

/-- Recorded errors are never dropped by a cleanup iteration. -/
theorem cleanup_job_errors_mono {rmtreeErr : ArtifactDir → Option String} {jid : String}
    {w : World} {stats : CleanupStats} {x : String} (h : x ∈ stats.errors) :
    x ∈ (cleanup_job rmtreeErr jid w stats).2.errors := by
  rcases cleanup_job_shape rmtreeErr jid w stats with
    ⟨-, ⟨msg, -, h2⟩, -⟩ | ⟨-, ⟨msg, -, h2⟩, -⟩ | ⟨-, h2, -⟩ <;> rw [h2]
  · exact List.mem_append_left _ h
  · exact List.mem_append_left _ h
  · exact h

/-- A cleanup iteration of one job id leaves the rows of other ids alone. -/
theorem cleanup_job_jobs_frame {rmtreeErr : ArtifactDir → Option String} {jid : String}
    {w : World} {stats : CleanupStats} {j : Job} (hne : j.id ≠ jid) :
    j ∈ (cleanup_job rmtreeErr jid w stats).1.jobs ↔ j ∈ w.jobs := by
  rcases cleanup_job_shape rmtreeErr jid w stats with ⟨h1, -⟩ | ⟨h1, -⟩ | ⟨h1, -⟩
  · rw [h1]
  · rw [h1]
  · rw [h1]
    constructor
    · exact fun h => (List.mem_filter.mp h).1
    · exact fun h => List.mem_filter.mpr ⟨h, by simp [hne]⟩

/-- A cleanup iteration of one job id leaves other directories alone. -/
theorem cleanup_job_dirs_frame {rmtreeErr : ArtifactDir → Option String} {jid : String}
    {w : World} {stats : CleanupStats} {d : ArtifactDir}
    (h1 : d ≠ ArtifactDir.model jid) (h2 : d ≠ ArtifactDir.exported jid) :
    d ∈ dirs (cleanup_job rmtreeErr jid w stats).1.fs ↔ d ∈ dirs w.fs := by
  rcases cleanup_job_shape rmtreeErr jid w stats with ⟨he, -⟩ | ⟨he, -⟩ | ⟨he, -⟩
  · rw [he]
  · rw [he]
    exact mem_dirs_removeKey_of_ne h1
  · rw [he]
    exact (mem_dirs_removeKey_of_ne h2).trans (mem_dirs_removeKey_of_ne h1)

/-- A stuck cleanup iteration changes nothing and deletes nothing. -/
theorem cleanup_job_of_stuck {rmtreeErr : ArtifactDir → Option String} {jid : String}
    {w : World} {stats : CleanupStats} (hst : stuckDir rmtreeErr w.fs jid) :
    (cleanup_job rmtreeErr jid w stats).1 = w ∧
    (cleanup_job rmtreeErr jid w stats).2.jobs_deleted = stats.jobs_deleted := by
  rcases cleanup_job_shape rmtreeErr jid w stats with
    ⟨h1, -, h3, -⟩ | ⟨h1, -, h3, himp, -⟩ | ⟨-, -, -, himpm, himpe⟩
  · exact ⟨h1, h3⟩
  · rcases hst with ⟨hmem, hne⟩ | ⟨hnot, -, -⟩
    · exact absurd (himp hmem) hne
    · rw [removeKey_of_not_mem hnot] at h1
      exact ⟨h1, h3⟩
  · exfalso
    rcases hst with ⟨hmem, hne⟩ | ⟨-, hmem, hne⟩
    · exact hne (himpm hmem)
    · exact hne (himpe hmem)

/-- An error-free cleanup iteration fully deletes the job: rows and both
artifact directories, recording no error and counting one deletion. -/
theorem cleanup_job_clean {rmtreeErr : ArtifactDir → Option String} {jid : String}
    {w : World} {stats : CleanupStats}
    (hm : rmtreeErr (ArtifactDir.model jid) = none)
    (he : rmtreeErr (ArtifactDir.exported jid) = none) :
    (∀ j ∈ (cleanup_job rmtreeErr jid w stats).1.jobs, j.id ≠ jid) ∧
    ArtifactDir.model jid ∉ dirs (cleanup_job rmtreeErr jid w stats).1.fs ∧
    ArtifactDir.exported jid ∉ dirs (cleanup_job rmtreeErr jid w stats).1.fs ∧
    (cleanup_job rmtreeErr jid w stats).2.errors = stats.errors ∧
    (cleanup_job rmtreeErr jid w stats).2.jobs_deleted = stats.jobs_deleted + 1 ∧
    (cleanup_job rmtreeErr jid w stats).1.jobs = w.jobs.filter (fun j => !(decide (j.id = jid))) := by
  rcases cleanup_job_shape rmtreeErr jid w stats with
    ⟨-, -, -, hst⟩ | ⟨-, -, -, -, hst⟩ | ⟨h1, h2, h3, -, -⟩
  · exfalso
    rcases hst with ⟨-, hne⟩ | ⟨-, -, hne⟩
    · exact hne hm
    · exact hne he
  · exfalso
    rcases hst with ⟨-, hne⟩ | ⟨-, -, hne⟩
    · exact hne hm
    · exact hne he
  · refine ⟨?_, ?_, ?_, h2, h3, by rw [h1]⟩
    · intro j hj
      rw [h1] at hj
      have := (List.mem_filter.mp hj).2
      simpa using this
    · rw [h1]
      intro hmem
      exact not_mem_dirs_removeKey w.fs (ArtifactDir.model jid)
        ((mem_dirs_removeKey_of_ne (artifactDir_model_ne_exported jid jid)).mp hmem)
    · rw [h1]
      exact not_mem_dirs_removeKey _ _

/-- Stuckness of a job id is unaffected by removing directories of other
keys. -/
theorem stuckDir_removeKey {rmtreeErr : ArtifactDir → Option String} {fs : FS} {jid : String}
    (h : stuckDir rmtreeErr fs jid) (k : ArtifactDir)
    (h1 : k ≠ ArtifactDir.model jid) (h2 : k ≠ ArtifactDir.exported jid) :
    stuckDir rmtreeErr (removeKey fs k) jid := by
  rcases h with ⟨hmem, hne⟩ | ⟨hnot, hmem, hne⟩
  · exact Or.inl ⟨(mem_dirs_removeKey_of_ne (Ne.symm h1)).mpr hmem, hne⟩
  · refine Or.inr ⟨?_, (mem_dirs_removeKey_of_ne (Ne.symm h2)).mpr hmem, hne⟩
    intro hc
    exact hnot (dirs_removeKey_sub hc)

/-- Rows are never created by the cleanup loop. -/
theorem cleanup_run_jobs_mono (rmtreeErr : ArtifactDir → Option String) :
    ∀ (ids : List String) (w : World) (s : CleanupStats) (j : Job),
      j ∈ (cleanup_run rmtreeErr ids w s).1.jobs → j ∈ w.jobs := by
  intro ids
  induction ids with
  | nil => exact fun w s j h => h
  | cons jid rest ih =>
    intro w s j h
    simp only [cleanup_run] at h
    exact cleanup_job_jobs_mono (ih _ _ j h)

/-- Directories are never created by the cleanup loop. -/
theorem cleanup_run_dirs_mono (rmtreeErr : ArtifactDir → Option String) :
    ∀ (ids : List String) (w : World) (s : CleanupStats) (d : ArtifactDir),
      d ∈ dirs (cleanup_run rmtreeErr ids w s).1.fs → d ∈ dirs w.fs := by
  intro ids
  induction ids with
  | nil => exact fun w s d h => h
  | cons jid rest ih =>
    intro w s d h
    simp only [cleanup_run] at h
    exact cleanup_job_dirs_mono (ih _ _ d h)

/-- Recorded errors are never dropped by the cleanup loop. -/
theorem cleanup_run_errors_mono (rmtreeErr : ArtifactDir → Option String) :
    ∀ (ids : List String) (w : World) (s : CleanupStats) (x : String),
      x ∈ s.errors → x ∈ (cleanup_run rmtreeErr ids w s).2.errors := by
  intro ids
  induction ids with
  | nil => exact fun w s x h => h
  | cons jid rest ih =>
    intro w s x h
    simp only [cleanup_run]
    exact ih _ _ x (cleanup_job_errors_mono h)

/-- The loop leaves rows of unprocessed ids alone. -/
theorem cleanup_run_jobs_frame (rmtreeErr : ArtifactDir → Option String) :
    ∀ (ids : List String) (w : World) (s : CleanupStats) (j : Job),
      (∀ jid ∈ ids, j.id ≠ jid) →
      (j ∈ (cleanup_run rmtreeErr ids w s).1.jobs ↔ j ∈ w.jobs) := by
  intro ids
  induction ids with
  | nil => exact fun w s j h => Iff.rfl
  | cons jid rest ih =>
    intro w s j h
    simp only [cleanup_run]
    exact (ih _ _ j (fun i hi => h i (List.mem_cons_of_mem _ hi))).trans
      (cleanup_job_jobs_frame (h jid (List.mem_cons_self _ _)))

/-- The loop leaves directories of unprocessed ids alone. -/
theorem cleanup_run_dirs_frame (rmtreeErr : ArtifactDir → Option String) :
    ∀ (ids : List String) (w : World) (s : CleanupStats) (d : ArtifactDir),
      (∀ jid ∈ ids, d ≠ ArtifactDir.model jid ∧ d ≠ ArtifactDir.exported jid) →
      (d ∈ dirs (cleanup_run rmtreeErr ids w s).1.fs ↔ d ∈ dirs w.fs) := by
  intro ids
  induction ids with
  | nil => exact fun w s d h => Iff.rfl
  | cons jid rest ih =>
    intro w s d h
    simp only [cleanup_run]
    exact (ih _ _ d (fun i hi => h i (List.mem_cons_of_mem _ hi))).trans
      (cleanup_job_dirs_frame (h jid (List.mem_cons_self _ _)).1
        (h jid (List.mem_cons_self _ _)).2)

/-- A processed id whose artifact deletions do not error loses all its rows
and both directories, whatever happens to the other ids of the sweep. -/
theorem cleanup_run_clean_delete (rmtreeErr : ArtifactDir → Option String) :
    ∀ (ids : List String) (w : World) (s : CleanupStats) (jid : String),
      jid ∈ ids → rmtreeErr (ArtifactDir.model jid) = none →
      rmtreeErr (ArtifactDir.exported jid) = none →
      ((∀ j ∈ (cleanup_run rmtreeErr ids w s).1.jobs, j.id ≠ jid) ∧
       ArtifactDir.model jid ∉ dirs (cleanup_run rmtreeErr ids w s).1.fs ∧
       ArtifactDir.exported jid ∉ dirs (cleanup_run rmtreeErr ids w s).1.fs) := by
  intro ids
  induction ids with
  | nil => intro w s jid h; exact absurd h (List.not_mem_nil _)
  | cons head rest ih =>
    intro w s jid hmem hm he
    simp only [cleanup_run]
    by_cases hh : head = jid
    · subst hh
      obtain ⟨hrows, hmdir, hedir, -, -, -⟩ :=
        @cleanup_job_clean rmtreeErr head w s hm he
      refine ⟨?_, ?_, ?_⟩
      · intro j hj
        exact hrows j (cleanup_run_jobs_mono rmtreeErr rest _ _ j hj)
      · exact fun hc => hmdir (cleanup_run_dirs_mono rmtreeErr rest _ _ _ hc)
      · exact fun hc => hedir (cleanup_run_dirs_mono rmtreeErr rest _ _ _ hc)
    · have hmem' : jid ∈ rest := by
        rcases List.mem_cons.mp hmem with h1 | h1
        · exact absurd h1.symm hh
        · exact h1
      exact ih _ _ jid hmem' hm he

/-- A processed id whose model-directory deletion errors keeps its rows and
gets the error recorded in the final statistics. -/
theorem cleanup_run_error_recorded (rmtreeErr : ArtifactDir → Option String) (msg : String) :
    ∀ (ids : List String) (w : World) (s : CleanupStats) (jid : String) (j : Job),
      ids.Nodup → jid ∈ ids → ArtifactDir.model jid ∈ dirs w.fs →
      rmtreeErr (ArtifactDir.model jid) = some msg →
      j ∈ w.jobs → j.id = jid →
      (cleanupErrMsg jid msg ∈ (cleanup_run rmtreeErr ids w s).2.errors ∧
       j ∈ (cleanup_run rmtreeErr ids w s).1.jobs) := by
  intro ids
  induction ids with
  | nil => intro w s jid j hnd hmem; exact absurd hmem (List.not_mem_nil _)
  | cons head rest ih =>
    intro w s jid j hnd hmem hdir herr hjmem hjid
    have hnd' := List.nodup_cons.mp hnd
    simp only [cleanup_run]
    by_cases hh : head = jid
    · subst hh
      rcases cleanup_job_shape rmtreeErr head w s with
        ⟨h1, ⟨m2, hm2, h2⟩, -, -⟩ | ⟨-, -, -, himp, -⟩ | ⟨-, -, -, himp, -⟩
      · have hmsg : m2 = msg := by
          rw [herr] at hm2
          exact (Option.some.injEq _ _ ▸ hm2).symm
        subst hmsg
        constructor
        · apply cleanup_run_errors_mono
          rw [h2]
          exact List.mem_append_right _ (List.mem_singleton.mpr rfl)
        · have hj1 : j ∈ (cleanup_job rmtreeErr head w s).1.jobs := by
            rw [h1]; exact hjmem
          refine (cleanup_run_jobs_frame rmtreeErr rest _ _ j ?_).mpr hj1
          intro i hi hc
          rw [← hc, hjid] at hi
          exact hnd'.1 hi
      · exact absurd (himp hdir) (by simp [herr])
      · exact absurd (himp hdir) (by simp [herr])
    · have hmem' : jid ∈ rest := by
        rcases List.mem_cons.mp hmem with h1 | h1
        · exact absurd h1.symm hh
        · exact h1
      have hne1 : ArtifactDir.model jid ≠ ArtifactDir.model head := by
        intro hc
        injection hc with h'
        exact hh h'.symm
      have hdir' : ArtifactDir.model jid ∈ dirs (cleanup_job rmtreeErr head w s).1.fs :=
        (cleanup_job_dirs_frame hne1 (artifactDir_model_ne_exported jid head)).mpr hdir
      have hjne : j.id ≠ head := by
        rw [hjid]
        exact fun hc => hh hc.symm
      have hjmem' : j ∈ (cleanup_job rmtreeErr head w s).1.jobs :=
        (cleanup_job_jobs_frame hjne).mpr hjmem
      exact ih _ _ jid j hnd'.2 hmem' hdir' herr hjmem' hjid

/-- With no deletion errors, the sweep deletes exactly the rows of the
processed ids, records no errors, and counts one deletion per id. -/
theorem cleanup_run_all_clean (rmtreeErr : ArtifactDir → Option String)
    (hclean : ∀ d, rmtreeErr d = none) :
    ∀ (ids : List String) (w : World) (s : CleanupStats),
      (cleanup_run rmtreeErr ids w s).1.jobs =
        w.jobs.filter (fun j => decide (j.id ∉ ids)) ∧
      (cleanup_run rmtreeErr ids w s).2.jobs_deleted = s.jobs_deleted + ids.length ∧
      (cleanup_run rmtreeErr ids w s).2.errors = s.errors := by
  intro ids
  induction ids with
  | nil =>
    intro w s
    refine ⟨?_, rfl, rfl⟩
    have hid : w.jobs.filter (fun j => decide (j.id ∉ ([] : List String))) = w.jobs :=
      List.filter_eq_self.mpr (fun a _ => by simp)
    rw [hid]
    rfl
  | cons head rest ih =>
    intro w s
    simp only [cleanup_run]
    obtain ⟨-, -, -, herrs, hjd, hjobs⟩ :=
      @cleanup_job_clean rmtreeErr head w s (hclean _) (hclean _)
    obtain ⟨ih1, ih2, ih3⟩ :=
      ih (cleanup_job rmtreeErr head w s).1 (cleanup_job rmtreeErr head w s).2
    refine ⟨?_, ?_, ?_⟩
    · rw [ih1, hjobs, List.filter_filter]
      apply List.filter_congr
      intro a ha
      by_cases h1 : a.id = head <;> by_cases h2 : a.id ∈ rest <;> simp [h1, h2]
    · rw [ih2, hjd]
      simp [List.length_cons]
      omega
    · rw [ih3, herrs]

/-- A sweep whose every processed id is stuck changes nothing and deletes
nothing. -/
theorem cleanup_run_of_all_stuck (rmtreeErr : ArtifactDir → Option String) :
    ∀ (ids : List String) (w : World) (s : CleanupStats),
      (∀ jid ∈ ids, stuckDir rmtreeErr w.fs jid) →
      (cleanup_run rmtreeErr ids w s).1 = w ∧
      (cleanup_run rmtreeErr ids w s).2.jobs_deleted = s.jobs_deleted := by
  intro ids
  induction ids with
  | nil => exact fun w s h => ⟨rfl, rfl⟩
  | cons head rest ih =>
    intro w s h
    simp only [cleanup_run]
    obtain ⟨h1, h2⟩ :=
      @cleanup_job_of_stuck rmtreeErr head w s (h head (List.mem_cons_self _ _))
    obtain ⟨ih1, ih2⟩ := ih (cleanup_job rmtreeErr head w s).1 (cleanup_job rmtreeErr head w s).2
      (by rw [h1]; exact fun jid hj => h jid (List.mem_cons_of_mem _ hj))
    exact ⟨ih1.trans h1, ih2.trans h2⟩

/-- After a sweep, every surviving job selected by `sel` is stuck against
the resulting filesystem, provided every selected job was either processed
or already stuck. -/
theorem cleanup_run_stuck_invariant (rmtreeErr : ArtifactDir → Option String)
    (sel : Job → Bool) :
    ∀ (ids : List String) (w : World) (s : CleanupStats),
      (∀ j ∈ w.jobs, sel j = true → j.id ∈ ids ∨ stuckDir rmtreeErr w.fs j.id) →
      ∀ j ∈ (cleanup_run rmtreeErr ids w s).1.jobs, sel j = true →
        stuckDir rmtreeErr (cleanup_run rmtreeErr ids w s).1.fs j.id := by
  intro ids
  induction ids with
  | nil =>
    intro w s h j hj hsel
    rcases h j hj hsel with hin | hst
    · exact absurd hin (List.not_mem_nil _)
    · exact hst
  | cons head rest ih =>
    intro w s h
    simp only [cleanup_run]
    apply ih
    intro j hj hsel
    rcases cleanup_job_shape rmtreeErr head w s with
      ⟨h1, -, -, hstk⟩ | ⟨h1, -, -, -, hstk⟩ | ⟨h1, -, -, -, -⟩
    · rw [h1] at hj ⊢
      rcases h j hj hsel with hin | hst
      · rcases List.mem_cons.mp hin with hEq | hin'
        · exact Or.inr (hEq ▸ hstk)
        · exact Or.inl hin'
      · exact Or.inr hst
    · rw [h1] at hj ⊢
      rcases h j hj hsel with hin | hst
      · rcases List.mem_cons.mp hin with hEq | hin'
        · exact Or.inr (hEq ▸ hstk)
        · exact Or.inl hin'
      · by_cases hje : j.id = head
        · exact Or.inr (hje ▸ hstk)
        · refine Or.inr (stuckDir_removeKey hst (ArtifactDir.model head) ?_ ?_)
          · intro hc
            injection hc with h'
            exact hje h'.symm
          · exact artifactDir_model_ne_exported head j.id
    · rw [h1] at hj ⊢
      have hj' := List.mem_filter.mp hj
      have hjne : j.id ≠ head := by simpa using hj'.2
      rcases h j hj'.1 hsel with hin | hst
      · rcases List.mem_cons.mp hin with hEq | hin'
        · exact absurd hEq hjne
        · exact Or.inl hin'
      · refine Or.inr (stuckDir_removeKey (stuckDir_removeKey hst (ArtifactDir.model head) ?_ ?_) (ArtifactDir.exported head) ?_ ?_)
        · intro hc
          injection hc with h'
          exact hjne h'.symm
        · exact artifactDir_model_ne_exported head j.id
        · exact Ne.symm (artifactDir_model_ne_exported j.id head)
        · intro hc
          injection hc with h'
          exact hjne h'.symm

/-- C7: the cleanup sweep with a cutoff deletes exactly the terminal
(completed or failed) jobs older than the cutoff — their rows, model
directories, and export directories — leaves pending/running jobs of any
age and their artifacts untouched, and records a failing deletion in the
returned errors list without aborting cleanup of the remaining jobs. -/
theorem C7_cleanup_deletes_only_old_terminal_jobs :
    ∀ (cutoff : Nat) (rmtreeErr : ArtifactDir → Option String) (w : World),
      (w.jobs.map Job.id).Nodup →
      ((∀ j ∈ w.jobs, jobSelected cutoff j = false →
          (j ∈ (cleanup_old_jobs cutoff rmtreeErr w).1.jobs ∧
           (ArtifactDir.model j.id ∈ dirs (cleanup_old_jobs cutoff rmtreeErr w).1.fs ↔
             ArtifactDir.model j.id ∈ dirs w.fs) ∧
           (ArtifactDir.exported j.id ∈ dirs (cleanup_old_jobs cutoff rmtreeErr w).1.fs ↔
             ArtifactDir.exported j.id ∈ dirs w.fs))) ∧
       (∀ j ∈ w.jobs, jobSelected cutoff j = true →
          rmtreeErr (ArtifactDir.model j.id) = none →
          rmtreeErr (ArtifactDir.exported j.id) = none →
          (j ∉ (cleanup_old_jobs cutoff rmtreeErr w).1.jobs ∧
           ArtifactDir.model j.id ∉ dirs (cleanup_old_jobs cutoff rmtreeErr w).1.fs ∧
           ArtifactDir.exported j.id ∉ dirs (cleanup_old_jobs cutoff rmtreeErr w).1.fs)) ∧
       (∀ j ∈ w.jobs, jobSelected cutoff j = true →
          ArtifactDir.model j.id ∈ dirs w.fs →
          ∀ msg, rmtreeErr (ArtifactDir.model j.id) = some msg →
          (cleanupErrMsg j.id msg ∈ (cleanup_old_jobs cutoff rmtreeErr w).2.errors ∧
           j ∈ (cleanup_old_jobs cutoff rmtreeErr w).1.jobs)) ∧
       ((∀ d, rmtreeErr d = none) →
          ((cleanup_old_jobs cutoff rmtreeErr w).1.jobs =
             w.jobs.filter (fun j => !(jobSelected cutoff j)) ∧
           (cleanup_old_jobs cutoff rmtreeErr w).2.jobs_deleted =
             (w.jobs.filter (jobSelected cutoff)).length ∧
           (cleanup_old_jobs cutoff rmtreeErr w).2.errors = []))) := by
  intro cutoff rmtreeErr w hnodup
  have hinj := List.inj_on_of_nodup_map hnodup
  have hids_elim : ∀ i ∈ (w.jobs.filter (jobSelected cutoff)).map Job.id,
      ∃ k, k ∈ w.jobs ∧ jobSelected cutoff k = true ∧ k.id = i := by
    intro i hi
    obtain ⟨k, hk, rfl⟩ := List.mem_map.mp hi
    have hk' := List.mem_filter.mp hk
    exact ⟨k, hk'.1, hk'.2, rfl⟩
  have hnodup_ids : ((w.jobs.filter (jobSelected cutoff)).map Job.id).Nodup :=
    hnodup.sublist ((List.filter_sublist w.jobs).map Job.id)
  unfold cleanup_old_jobs
  refine ⟨?_, ?_, ?_, ?_⟩
  · intro j hj hsel
    have hne : ∀ i ∈ (w.jobs.filter (jobSelected cutoff)).map Job.id, j.id ≠ i := by
      intro i hi hc
      obtain ⟨k, hk, hksel, rfl⟩ := hids_elim i hi
      have hjk : j = k := hinj hj hk hc
      rw [hjk] at hsel
      rw [hsel] at hksel
      exact Bool.noConfusion hksel
    refine ⟨(cleanup_run_jobs_frame rmtreeErr _ _ _ j hne).mpr hj, ?_, ?_⟩
    · apply cleanup_run_dirs_frame
      intro i hi
      obtain ⟨k, hk, hksel, rfl⟩ := hids_elim i hi
      constructor
      · intro hc
        injection hc with h'
        exact hne k.id (List.mem_map_of_mem _ (List.mem_filter.mpr ⟨hk, hksel⟩)) h'
      · exact artifactDir_model_ne_exported j.id k.id
    · apply cleanup_run_dirs_frame
      intro i hi
      obtain ⟨k, hk, hksel, rfl⟩ := hids_elim i hi
      constructor
      · exact Ne.symm (artifactDir_model_ne_exported k.id j.id)
      · intro hc
        injection hc with h'
        exact hne k.id (List.mem_map_of_mem _ (List.mem_filter.mpr ⟨hk, hksel⟩)) h'
  · intro j hj hsel hm he
    have hjid : j.id ∈ (w.jobs.filter (jobSelected cutoff)).map Job.id :=
      List.mem_map_of_mem _ (List.mem_filter.mpr ⟨hj, hsel⟩)
    obtain ⟨hrows, hmdir, hedir⟩ :=
      cleanup_run_clean_delete rmtreeErr _ w _ j.id hjid hm he
    exact ⟨fun hc => hrows j hc rfl, hmdir, hedir⟩
  · intro j hj hsel hdir msg herr
    have hjid : j.id ∈ (w.jobs.filter (jobSelected cutoff)).map Job.id :=
      List.mem_map_of_mem _ (List.mem_filter.mpr ⟨hj, hsel⟩)
    exact cleanup_run_error_recorded rmtreeErr msg _ w _ j.id j hnodup_ids hjid hdir herr hj rfl
  · intro hclean
    obtain ⟨h1, h2, h3⟩ := cleanup_run_all_clean rmtreeErr hclean
      ((w.jobs.filter (jobSelected cutoff)).map Job.id) w
      { jobs_deleted := 0, files_deleted := 0, space_freed_bytes := 0, errors := [] }
    refine ⟨?_, ?_, h3⟩
    · rw [h1]
      apply List.filter_congr
      intro a ha
      by_cases hsel : jobSelected cutoff a = true
      · have hin : a.id ∈ (w.jobs.filter (jobSelected cutoff)).map Job.id :=
          List.mem_map_of_mem _ (List.mem_filter.mpr ⟨ha, hsel⟩)
        simp [hin, hsel]
      · have hsel' : jobSelected cutoff a = false := by
          cases hq : jobSelected cutoff a
          · rfl
          · exact absurd hq hsel
        have hnot : a.id ∉ (w.jobs.filter (jobSelected cutoff)).map Job.id := by
          intro hc
          obtain ⟨k, hk, hksel, hkid⟩ := hids_elim _ hc
          have hak : a = k := hinj ha hk hkid.symm
          rw [← hak] at hksel
          exact hsel hksel
        simp [hnot, hsel']
    · rw [h2, List.length_map]
      simp

/-- Witness for C7 on Scenario E: with a 7-day-style cutoff over a store
holding one old completed job and one old running job, only the completed
job and its artifacts are deleted; the running job and its model directory
remain. -/
theorem C7_cleanup_deletes_only_old_terminal_jobs_witness :
    runningJobFixture ∈ (cleanup_old_jobs 5 (fun _ => none) scenarioEWorld).1.jobs ∧
    completedJobFixture ∉ (cleanup_old_jobs 5 (fun _ => none) scenarioEWorld).1.jobs ∧
    (ArtifactDir.model "job-run" ∈ dirs (cleanup_old_jobs 5 (fun _ => none) scenarioEWorld).1.fs ↔
      ArtifactDir.model "job-run" ∈ dirs scenarioEWorld.fs) ∧
    ArtifactDir.model "job-done" ∉ dirs (cleanup_old_jobs 5 (fun _ => none) scenarioEWorld).1.fs := by
  obtain ⟨hA, hB, -, -⟩ :=
    C7_cleanup_deletes_only_old_terminal_jobs 5 (fun _ => none) scenarioEWorld (by decide)
  obtain ⟨hrun, hrundir, -⟩ := hA runningJobFixture (by simp [scenarioEWorld]) (by decide)
  obtain ⟨hdone, hdonedir, -⟩ :=
    hB completedJobFixture (by simp [scenarioEWorld]) (by decide) rfl rfl
  exact ⟨hrun, hdone, hrundir, hdonedir⟩

/-- C8: running the cleanup sweep twice in a row with the same cutoff and
the same deletion-error behaviour deletes zero additional jobs on the
second run — everything the first run could delete it deleted, and what it
could not delete it still cannot. -/
theorem C8_cleanup_idempotent :
    ∀ (cutoff : Nat) (rmtreeErr : ArtifactDir → Option String) (w : World),
      ((cleanup_old_jobs cutoff rmtreeErr
        (cleanup_old_jobs cutoff rmtreeErr w).1).2).jobs_deleted = 0 := by
  intro cutoff rmtreeErr w
  unfold cleanup_old_jobs
  have hinv := cleanup_run_stuck_invariant rmtreeErr (jobSelected cutoff)
    ((w.jobs.filter (jobSelected cutoff)).map Job.id) w
    { jobs_deleted := 0, files_deleted := 0, space_freed_bytes := 0, errors := [] }
    (fun j hj hsel => Or.inl (List.mem_map_of_mem _ (List.mem_filter.mpr ⟨hj, hsel⟩)))
  refine (cleanup_run_of_all_stuck rmtreeErr _ _ _ ?_).2
  intro jid hjid
  obtain ⟨j, hj, rfl⟩ := List.mem_map.mp hjid
  have hj' := List.mem_filter.mp hj
  exact hinv j hj'.1 hj'.2

end SiennAI
